import Mathlib

/-!
Verification of the S3 remote cache client (`src/S3_remote_cache.py`).

The development shallowly embeds the two classes of the source file:

* `S3RemoteCacheBackend` — owns the (possibly absent) S3 client and the
  region/bucket configuration; `_get` / `_put` branch on the outcome of the
  corresponding `boto3` call, which we model as an explicit `S3Response`
  argument (the code only ever inspects `e.response['Error']['Code']` of a
  caught `ClientError`, or uses the success payload).
* `S3RemoteCache` — the façade; its key scheme builds the format string
  `f"pt2:{cache_id}::{{key}}:c{version}"` (with `version = 1`) at
  construction time and later calls Python's `str.format(key=key)` on it.

External collaborators (the S3 service's conditional-put/get semantics and
Python's `str.format`) are modelled explicitly and documented at their
definitions; everything else is translated directly from the source.
-/

/-- Byte strings are modelled as lists of naturals; only equality of
contents matters to the cache. -/
abbrev Bytes := List Nat

/-- Outcome of a boto3 S3 call as seen by the calling code: either the
successful payload, or a caught `ClientError` carrying the error code string
read from `e.response['Error']['Code']`. -/
inductive S3Response (α : Type) where
  | success (value : α)
  | clientError (code : String)
deriving DecidableEq

/-- State of an `S3RemoteCacheBackend` instance: `_s3_client` is `true` when
the instance holds a live client (`self._s3_client` is not `None`), and the
region/bucket fields mirror `self._s3_region` / `self._s3_bucket` (class
default `None`). -/
structure S3RemoteCacheBackend where
  s3_client : Bool
  s3_region : Option String
  s3_bucket : Option String
deriving DecidableEq

/-- `S3RemoteCacheBackend.__init__(cache_id)`.  `boto3` says whether the
`boto3` import succeeded (`raise RuntimeError` otherwise); `envRegion` /
`envBucket` are the values of `TORCHINDUCTOR_REMOTE_CACHE_S3_REGION` /
`TORCHINDUCTOR_REMOTE_CACHE_S3_BUCKET`; `create_bucket_response` is the
outcome of the `create_bucket` call (only consulted when both environment
variables are present).  The `CreateBucketConfiguration` payload sent for
non-`us-east-1` regions affects only the request, never the resulting state,
so it is not modelled.  The `cache_id` parameter is never read, exactly as
in the source. -/
def S3RemoteCacheBackend.init (cache_id : String) (boto3 : Bool)
    (envRegion envBucket : Option String)
    (create_bucket_response : S3Response Unit) :
    Except String S3RemoteCacheBackend :=
  if !boto3 then
    .error "boto3 not available but required for remote cache"
  else
    match envRegion with
    | none => .ok { s3_client := false, s3_region := none, s3_bucket := none }
    | some region =>
      match envBucket with
      | none => .ok { s3_client := false, s3_region := some region, s3_bucket := none }
      | some bucket =>
        match create_bucket_response with
        | .success _ =>
            .ok { s3_client := true, s3_region := some region, s3_bucket := some bucket }
        | .clientError code =>
            if code = "BucketAlreadyOwnedByYou" then
              .ok { s3_client := true, s3_region := some region, s3_bucket := some bucket }
            else
              .ok { s3_client := false, s3_region := some region, s3_bucket := some bucket }

/-- `S3RemoteCacheBackend._get(key)`.  Returns the updated instance state
together with the `Optional[bytes]` result.  The `get_object` outcome is the
explicit `response` argument; when `self._s3_client` is falsy the method
returns `None` before any call is made, so the response is ignored.  Every
`ClientError` is caught, so the method never raises a storage error. -/
def S3RemoteCacheBackend._get (self : S3RemoteCacheBackend) (key : String)
    (response : S3Response Bytes) : S3RemoteCacheBackend × Option Bytes :=
  if !self.s3_client then
    (self, none)
  else
    match response with
    | .success body => (self, some body)
    | .clientError code =>
        if code = "NoSuchKey" then (self, none)
        else ({ self with s3_client := false }, none)

/-- `S3RemoteCacheBackend._put(key, data)`.  Returns the updated instance
state (the method itself returns `None`).  The `put_object(..., IfNoneMatch='*')`
outcome is the explicit `response` argument; when `self._s3_client` is falsy
the method returns before any call is made.  A `PreconditionFailed` error
code is swallowed; any other `ClientError` code sets `self._s3_client = None`. -/
def S3RemoteCacheBackend._put (self : S3RemoteCacheBackend) (key : String)
    (data : Bytes) (response : S3Response Unit) : S3RemoteCacheBackend :=
  if !self.s3_client then
    self
  else
    match response with
    | .success _ => self
    | .clientError code =>
        if code = "PreconditionFailed" then self
        else { self with s3_client := false }

/-- Modelled external collaborator: the S3 bucket contents, a finite map
from object key to stored bytes. -/
structure S3Store where
  objects : List (String × Bytes)
deriving DecidableEq

/-- Object stored at `key`, if any. -/
def S3Store.lookup (s : S3Store) (key : String) : Option Bytes :=
  s.objects.lookup key

/-- Store with `key` now mapping to `data` (new binding shadows any old one). -/
def S3Store.insert (s : S3Store) (key : String) (data : Bytes) : S3Store :=
  { objects := (key, data) :: s.objects }

/-- Modelled external collaborator: S3 `get_object`.  Returns the stored
bytes, or a `ClientError` with code `NoSuchKey` when the key is absent. -/
def s3GetObject (s : S3Store) (key : String) : S3Response Bytes :=
  match s.lookup key with
  | some body => .success body
  | none => .clientError "NoSuchKey"

/-- Modelled external collaborator: S3 `put_object` with `IfNoneMatch='*'`
(conditional create).  Writes only when the key is absent; if an object
already exists the store is unchanged and the call fails with a
`ClientError` whose code is `PreconditionFailed`. -/
def s3PutObject (s : S3Store) (key : String) (data : Bytes) :
    S3Store × S3Response Unit :=
  match s.lookup key with
  | some _ => (s, .clientError "PreconditionFailed")
  | none => (s.insert key data, .success ())

/-- One `_get` call of the backend run against the modelled S3 service
(the service is only contacted when a live client is held). -/
def runGet (b : S3RemoteCacheBackend) (s : S3Store) (key : String) :
    S3RemoteCacheBackend × Option Bytes :=
  b._get key (s3GetObject s key)

/-- One `_put` call of the backend run against the modelled S3 service;
returns the updated backend state and store.  The store is only contacted
(and hence only changed) when a live client is held. -/
def runPut (b : S3RemoteCacheBackend) (s : S3Store) (key : String)
    (data : Bytes) : S3RemoteCacheBackend × S3Store :=
  if !b.s3_client then
    (b, s)
  else
    let (s2, response) := s3PutObject s key data
    (b._put key data response, s2)

/-- One backend method invocation, with its externally supplied outcome;
used to talk about arbitrary sequences of operations on one instance. -/
inductive CacheOp where
  | getOp (key : String) (response : S3Response Bytes)
  | putOp (key : String) (data : Bytes) (response : S3Response Unit)

/-- Backend state after one operation. -/
def applyOp (b : S3RemoteCacheBackend) (op : CacheOp) : S3RemoteCacheBackend :=
  match op with
  | .getOp key response => (b._get key response).1
  | .putOp key data response => b._put key data response

/-- Backend state after a sequence of operations. -/
def applyOps (b : S3RemoteCacheBackend) (ops : List CacheOp) : S3RemoteCacheBackend :=
  ops.foldl applyOp b

/-- Left brace character, written via its code point so it never appears in
a literal position. -/
def lbrace : Char := Char.ofNat 123

/-- Right brace character, written via its code point so it never appears in
a literal position. -/
def rbrace : Char := Char.ofNat 125

/-- Errors raised by Python's `str.format`: `valueError` for a stray or
unmatched brace, `keyError name` for a replacement field whose name is not a
supplied keyword argument. -/
inductive FormatError where
  | valueError
  | keyError (name : String)
deriving DecidableEq

instance {ε α : Type} [DecidableEq ε] [DecidableEq α] : DecidableEq (Except ε α)
  | .ok a, .ok b =>
    if h : a = b then .isTrue (by rw [h]) else .isFalse (by simp [h])
  | .ok _, .error _ => .isFalse (by simp)
  | .error _, .ok _ => .isFalse (by simp)
  | .error a, .error b =>
    if h : a = b then .isTrue (by rw [h]) else .isFalse (by simp [h])

/-- Field name `key`, the single keyword argument `_get_key` supplies. -/
def keyFieldName : List Char := ['k', 'e', 'y']

/-- Modelled external collaborator: the scan of Python's
`fmt.format(key=key)` over the format string.  In literal mode
(second argument `none`): a doubled brace emits one literal brace, a single
left brace opens a replacement field, a single right brace is a
`ValueError`, and any other character is copied.  In field mode
(second argument `some name`, the accumulated field name reversed): a right
brace closes the field — substituting the keyword argument when the name is
exactly `key` and failing with a `KeyError` otherwise — the end of the
string is a `ValueError`, and any other character extends the name.  Fields
with conversion or format-spec suffixes therefore map to errors rather than
to Python's conversion behaviour; no theorem below exercises them. -/
def pyFormatAux (key : List Char) :
    Option (List Char) → List Char → Except FormatError (List Char)
  | none, [] => .ok []
  | none, [c] =>
    if c = lbrace then
      pyFormatAux key (some []) []
    else if c = rbrace then
      .error .valueError
    else
      Except.map (fun r => c :: r) (pyFormatAux key none [])
  | none, c :: c2 :: rest2 =>
    if c = lbrace then
      if c2 = lbrace then
        Except.map (fun r => lbrace :: r) (pyFormatAux key none rest2)
      else
        pyFormatAux key (some []) (c2 :: rest2)
    else if c = rbrace then
      if c2 = rbrace then
        Except.map (fun r => rbrace :: r) (pyFormatAux key none rest2)
      else
        .error .valueError
    else
      Except.map (fun r => c :: r) (pyFormatAux key none (c2 :: rest2))
  | some _, [] => .error .valueError
  | some name, c :: rest =>
    if c = rbrace then
      if name.reverse = keyFieldName then
        Except.map (fun r => key ++ r) (pyFormatAux key none rest)
      else
        .error (.keyError (String.mk name.reverse))
    else
      pyFormatAux key (some (c :: name)) rest

/-- Python `fmt.format(key=key)`, on strings. -/
def pyFormat (fmt : String) (key : String) : Except FormatError String :=
  Except.map String.mk (pyFormatAux key.data none fmt.data)

/-- `S3RemoteCache.__init__` sets
`self._key_fmt = f"pt2:{cache_id}::{{key}}:c{version}"` with `version = 1`;
the f-string interpolation amounts to this concatenation (`{{key}}` denotes
the literal text `{key}`). -/
def S3RemoteCache.key_fmt (cache_id : String) : String :=
  "pt2:" ++ cache_id ++ "::{key}:c1"

/-- `S3RemoteCache._get_key(key)`: `self._key_fmt.format(key=key)`. -/
def S3RemoteCache._get_key (cache_id : String) (key : String) :
    Except FormatError String :=
  pyFormat (S3RemoteCache.key_fmt cache_id) key

/-- Physical key exactly as claim C2 words it:
`"pt2:" + namespace + "::" + key + ":c1"`. -/
def specPhysicalKey (ns k : String) : String :=
  "pt2:" ++ ns ++ "::" ++ k ++ ":c1"

/-- Physical key shape asserted by the spec's data model:
`"{scheme}:{namespace}::{logical_key}:v{version}"`, the version component
prefixed with the letter `v`. -/
def specPhysicalKeyV (scheme ns k : String) (v : Nat) : String :=
  scheme ++ ":" ++ ns ++ "::" ++ k ++ ":v" ++ toString v

/-- Physical key shape with the version component prefixed with the letter
`c`, as the code's format string actually has it. -/
def specPhysicalKeyC (scheme ns k : String) (v : Nat) : String :=
  scheme ++ ":" ++ ns ++ "::" ++ k ++ ":c" ++ toString v

/-- Strings containing no brace character; on these `str.format` copies
every character literally. -/
def braceFree (s : String) : Prop :=
  ∀ c ∈ s.data, c ≠ lbrace ∧ c ≠ rbrace

instance (s : String) : Decidable (braceFree s) :=
  inferInstanceAs (Decidable (∀ c ∈ s.data, c ≠ lbrace ∧ c ≠ rbrace))

theorem exceptMap_map {α β γ ε : Type} (f : α → β) (g : β → γ) (e : Except ε α) :
    Except.map g (Except.map f e) = Except.map (fun a => g (f a)) e := by
  cases e <;> rfl

theorem pyFormatAux_cons_free (key : List Char) (c : Char) (rest : List Char)
    (h1 : c ≠ lbrace) (h2 : c ≠ rbrace) :
    pyFormatAux key none (c :: rest)
      = Except.map (fun r => c :: r) (pyFormatAux key none rest) := by
  cases rest with
  | nil => simp [pyFormatAux, h1, h2]
  | cons c2 rest2 => simp [pyFormatAux, h1, h2]

theorem pyFormatAux_append_free (key l rest : List Char)
    (h : ∀ c ∈ l, c ≠ lbrace ∧ c ≠ rbrace) :
    pyFormatAux key none (l ++ rest)
      = Except.map (fun r => l ++ r) (pyFormatAux key none rest) := by
  induction l with
  | nil =>
    show pyFormatAux key none rest = Except.map (fun r => r) (pyFormatAux key none rest)
    cases pyFormatAux key none rest <;> rfl
  | cons c l ih =>
    have hc := h c (List.mem_cons_self c l)
    have hl : ∀ x ∈ l, x ≠ lbrace ∧ x ≠ rbrace :=
      fun x hx => h x (List.mem_cons_of_mem c hx)
    rw [List.cons_append, pyFormatAux_cons_free key c (l ++ rest) hc.1 hc.2,
      ih hl, exceptMap_map]
    rfl

theorem pyFormatAux_free (key l : List Char)
    (h : ∀ c ∈ l, c ≠ lbrace ∧ c ≠ rbrace) :
    pyFormatAux key none l = .ok l := by
  have := pyFormatAux_append_free key l [] h
  simpa [Except.map, pyFormatAux] using this

theorem pyFormatAux_key_field (key rest : List Char) :
    pyFormatAux key none (lbrace :: 'k' :: 'e' :: 'y' :: rbrace :: rest)
      = Except.map (fun r => key ++ r) (pyFormatAux key none rest) := by
  simp +decide [pyFormatAux, keyFieldName]

theorem key_fmt_data (ns : String) :
    (S3RemoteCache.key_fmt ns).data
      = "pt2:".data ++ (ns.data
          ++ ([':', ':'] ++ (lbrace :: 'k' :: 'e' :: 'y' :: rbrace :: [':', 'c', '1']))) := by
  show ("pt2:" ++ ns ++ "::{key}:c1").data = _
  simp +decide [String.data_append]

theorem get_key_of_braceFree (ns k : String) (h : braceFree ns) :
    S3RemoteCache._get_key ns k = .ok (specPhysicalKey ns k) := by
  show Except.map String.mk (pyFormatAux k.data none (S3RemoteCache.key_fmt ns).data)
      = .ok (specPhysicalKey ns k)
  rw [key_fmt_data,
    pyFormatAux_append_free _ _ _ (by decide),
    pyFormatAux_append_free _ _ _ h,
    pyFormatAux_append_free _ _ _ (by decide),
    pyFormatAux_key_field,
    pyFormatAux_free _ _ (by decide)]
  show Except.ok (String.mk _) = _
  refine congrArg Except.ok (String.ext ?_)
  simp [specPhysicalKey, String.data_append]

/-- Claim C1 (write-once invariant): on an active backend, after a
successful conditional create of `v1` at physical key `k` (the key was
absent, so the store accepted the write), a second `_put` of `v2 ≠ v1` at
`k` is a success-no-op: it returns normally with the backend's client state
unchanged (the store reports `PreconditionFailed`) and the stored content
at `k` still equal to `v1`; a subsequent `_get k` then returns `v1`, never
`v2` and never an error (every `ClientError` is caught inside `_get`). -/
theorem put_put_get_write_once (b : S3RemoteCacheBackend) (s : S3Store)
    (k : String) (v1 v2 : Bytes)
    (hb : b.s3_client = true) (hk : s.lookup k = none) (hne : v1 ≠ v2) :
    runPut b s k v1 = (b, s.insert k v1) ∧
    runPut b (s.insert k v1) k v2 = (b, s.insert k v1) ∧
    (s.insert k v1).lookup k = some v1 ∧
    runGet b (s.insert k v1) k = (b, some v1) ∧
    some v1 ≠ (some v2 : Option Bytes) := by
  have hlk : (s.insert k v1).lookup k = some v1 := by
    simp [S3Store.insert, S3Store.lookup, List.lookup]
  refine ⟨?_, ?_, hlk, ?_, ?_⟩
  · simp [runPut, hb, s3PutObject, hk, S3RemoteCacheBackend._put]
  · simp [runPut, hb, s3PutObject, hlk, S3RemoteCacheBackend._put]
  · simp [runGet, s3GetObject, hlk, S3RemoteCacheBackend._get, hb]
  · simpa using hne

theorem put_put_get_write_once_witness :
    runGet ⟨true, some "us-west-2", some "bkt"⟩
        (S3Store.insert ⟨[]⟩ "k" [1]) "k"
      = (⟨true, some "us-west-2", some "bkt"⟩, some [1]) :=
  (put_put_get_write_once ⟨true, some "us-west-2", some "bkt"⟩ ⟨[]⟩ "k" [1] [2]
    rfl rfl (by decide)).2.2.2.1

/-- Claim C3 (miss-on-disabled, permanently): once the backend's client is
`None`, every `_get` returns `None` and leaves the state untouched whatever
the store would answer (the store is never contacted), every `_put` returns
leaving the state untouched, and no sequence of `_get`/`_put` operations
ever makes the client non-`None` again. -/
theorem disabled_is_permanent (b : S3RemoteCacheBackend)
    (hb : b.s3_client = false) :
    (∀ key response, b._get key response = (b, none)) ∧
    (∀ key data response, b._put key data response = b) ∧
    (∀ ops, (applyOps b ops).s3_client = false) := by
  have step : ∀ (b' : S3RemoteCacheBackend), b'.s3_client = false →
      ∀ op, (applyOp b' op).s3_client = false := by
    intro b' hb' op
    cases op <;>
      simp [applyOp, S3RemoteCacheBackend._get, S3RemoteCacheBackend._put, hb']
  refine ⟨?_, ?_, ?_⟩
  · intro key response; simp [S3RemoteCacheBackend._get, hb]
  · intro key data response; simp [S3RemoteCacheBackend._put, hb]
  · suffices h : ∀ ops (b' : S3RemoteCacheBackend), b'.s3_client = false →
        (applyOps b' ops).s3_client = false from fun ops => h ops b hb
    intro ops
    induction ops with
    | nil => intro b' hb'; simpa [applyOps] using hb'
    | cons op ops ih =>
      intro b' hb'
      show (applyOps (applyOp b' op) ops).s3_client = false
      exact ih _ (step b' hb' op)

theorem disabled_is_permanent_witness :
    (applyOps ⟨false, none, none⟩
        [CacheOp.getOp "k" (.success [7]),
         CacheOp.putOp "k" [7] (.success ())]).s3_client = false :=
  (disabled_is_permanent ⟨false, none, none⟩ rfl).2.2
    [CacheOp.getOp "k" (.success [7]), CacheOp.putOp "k" [7] (.success ())]

/-- Claim C4 (fail-soft get): `_get` never raises a storage-layer error
(its embedding is a total function — every `ClientError` branch is caught
in the source); on an active backend a successful read returns the body
with the state unchanged, a `NoSuchKey` error returns `None` with the
client state unchanged (still active), any other `ClientError` code
disables the backend and returns `None`, and on a disabled backend `_get`
returns `None`. -/
theorem get_fail_soft (b : S3RemoteCacheBackend) (key code : String)
    (hb : b.s3_client = true) :
    (∀ body, b._get key (.success body) = (b, some body)) ∧
    b._get key (.clientError "NoSuchKey") = (b, none) ∧
    (code ≠ "NoSuchKey" →
      b._get key (.clientError code) = ({ b with s3_client := false }, none)) ∧
    (∀ b' : S3RemoteCacheBackend, b'.s3_client = false →
      b'._get key (.clientError code) = (b', none)) := by
  refine ⟨?_, ?_, ?_, ?_⟩
  · intro body; simp [S3RemoteCacheBackend._get, hb]
  · simp [S3RemoteCacheBackend._get, hb]
  · intro h; simp [S3RemoteCacheBackend._get, hb, h]
  · intro b' hb'; simp [S3RemoteCacheBackend._get, hb']

theorem get_fail_soft_witness :
    S3RemoteCacheBackend._get ⟨true, some "us-east-1", some "bkt"⟩ "k"
        (.clientError "AccessDenied")
      = (⟨false, some "us-east-1", some "bkt"⟩, none) :=
  (get_fail_soft ⟨true, some "us-east-1", some "bkt"⟩ "k" "AccessDenied"
    rfl).2.2.1 (by decide)

/-- Claim C5 (fail-open on missing configuration): with the boto3 library
available, constructing the backend when the region environment variable or
the bucket environment variable is absent completes without raising and
yields a backend whose S3 client is `None`, whatever any `create_bucket`
call would have answered (none is attempted). -/
theorem init_missing_config_disabled (cache_id : String)
    (envRegion envBucket : Option String) (resp : S3Response Unit)
    (h : envRegion = none ∨ envBucket = none) :
    ∃ b : S3RemoteCacheBackend,
      S3RemoteCacheBackend.init cache_id true envRegion envBucket resp = .ok b ∧
      b.s3_client = false := by
  rcases h with h | h
  · subst h; exact ⟨_, rfl, rfl⟩
  · subst h
    cases envRegion with
    | none => exact ⟨_, rfl, rfl⟩
    | some r => exact ⟨_, rfl, rfl⟩

theorem init_missing_config_disabled_witness :
    ∃ b : S3RemoteCacheBackend,
      S3RemoteCacheBackend.init "compile-cache" true none (some "bkt")
          (.success ()) = .ok b ∧
      b.s3_client = false :=
  init_missing_config_disabled "compile-cache" none (some "bkt") (.success ())
    (Or.inl rfl)

/-- Claim C6 (provisioning error policy): during construction with region
and bucket configured, a `create_bucket` `ClientError` with code
`BucketAlreadyOwnedByYou` is ignored and the backend stays active, while a
`create_bucket` `ClientError` with any other code leaves the backend
disabled (client `None`) without raising; on that disabled instance every
subsequent `_get` returns `None` and every `_put` returns leaving the state
unchanged. -/
theorem init_create_bucket_error_policy (cache_id region bucket code : String) :
    S3RemoteCacheBackend.init cache_id true (some region) (some bucket)
        (.clientError "BucketAlreadyOwnedByYou")
      = .ok ⟨true, some region, some bucket⟩ ∧
    (code ≠ "BucketAlreadyOwnedByYou" →
      S3RemoteCacheBackend.init cache_id true (some region) (some bucket)
          (.clientError code)
        = .ok ⟨false, some region, some bucket⟩ ∧
      (∀ key response,
        S3RemoteCacheBackend._get ⟨false, some region, some bucket⟩ key response
          = (⟨false, some region, some bucket⟩, none)) ∧
      (∀ key data response,
        S3RemoteCacheBackend._put ⟨false, some region, some bucket⟩ key data response
          = ⟨false, some region, some bucket⟩)) := by
  refine ⟨by simp [S3RemoteCacheBackend.init], fun h => ⟨?_, ?_, ?_⟩⟩
  · simp [S3RemoteCacheBackend.init, h]
  · intro key response; simp [S3RemoteCacheBackend._get]
  · intro key data response; simp [S3RemoteCacheBackend._put]

theorem init_create_bucket_error_policy_witness :
    S3RemoteCacheBackend.init "compile-cache" true (some "eu-west-1")
        (some "bkt") (.clientError "AccessDenied")
      = .ok ⟨false, some "eu-west-1", some "bkt"⟩ :=
  ((init_create_bucket_error_policy "compile-cache" "eu-west-1" "bkt"
    "AccessDenied").2 (by decide)).1

/-- Claim C7 (capability unavailable is the only hard failure):
constructing the backend when the boto3 library is unavailable raises a
`RuntimeError` immediately, for every environment configuration and every
store answer, rather than producing a disabled backend. -/
theorem init_raises_without_boto3 (cache_id : String)
    (envRegion envBucket : Option String) (resp : S3Response Unit) :
    S3RemoteCacheBackend.init cache_id false envRegion envBucket resp
      = .error "boto3 not available but required for remote cache" := rfl

/-- Claim C10 (backend behaviour independent of `cache_id`): the
constructor never reads its `cache_id` parameter, so two backends
constructed with arbitrary distinct ids in the same environment have the
same construction outcome — and hence, since `_get`/`_put` depend only on
the instance state and their arguments, identical behaviour on every key.
All namespacing happens in the façade's `_get_key`. -/
theorem init_independent_of_cache_id (id1 id2 : String) (boto3 : Bool)
    (envRegion envBucket : Option String) (resp : S3Response Unit) :
    S3RemoteCacheBackend.init id1 boto3 envRegion envBucket resp
      = S3RemoteCacheBackend.init id2 boto3 envRegion envBucket resp := rfl

/-- Claim C2, counterexample: `_get_key` does not map every `cache_id` to
`"pt2:" + ns + "::" + key + ":c1"`.  For `cache_id = "{key}"` the stored
format string becomes `"pt2:{key}::{key}:c1"` and `str.format` substitutes
the logical key into both fields, yielding `"pt2:a::a:c1"` instead of the
claimed `"pt2:{key}::a:c1"`. -/
theorem get_key_wire_format_counterexample :
    S3RemoteCache._get_key "{key}" "a" = .ok "pt2:a::a:c1" ∧
    specPhysicalKey "{key}" "a" = "pt2:{key}::a:c1" ∧
    ("pt2:a::a:c1" : String) ≠ "pt2:{key}::a:c1" := by decide

/-- Claim C2, amended: for every `cache_id` containing no brace character
and every logical key `k` (braces in `k` are harmless — the substituted key
is never rescanned), `_get_key` returns exactly
`"pt2:" + ns + "::" + k + ":c1"`, the published wire format. -/
theorem get_key_wire_format (ns k : String) (h : braceFree ns) :
    S3RemoteCache._get_key ns k = .ok (specPhysicalKey ns k) :=
  get_key_of_braceFree ns k h

theorem get_key_wire_format_witness :
    S3RemoteCache._get_key "compile-cache" "model{0}" =
      .ok (specPhysicalKey "compile-cache" "model{0}") :=
  get_key_wire_format "compile-cache" "model{0}" (by decide)

/-- Claim C8, counterexample: the physical key's version component is
prefixed with the letter `c`, not `v`: the key produced for namespace
`"ns"` and logical key `"k"` is `"pt2:ns::k:c1"`, which differs from the
claimed shape `specPhysicalKeyV "pt2" "ns" "k" 1 = "pt2:ns::k:v1"` and does
not end in `":v1"`. -/
theorem get_key_version_letter_counterexample :
    S3RemoteCache._get_key "ns" "k" = .ok "pt2:ns::k:c1" ∧
    specPhysicalKeyV "pt2" "ns" "k" 1 = "pt2:ns::k:v1" ∧
    ("pt2:ns::k:c1" : String) ≠ "pt2:ns::k:v1" ∧
    List.isSuffixOf ":v1".data "pt2:ns::k:c1".data = false ∧
    List.isSuffixOf ":c1".data "pt2:ns::k:c1".data = true := by decide

/-- Claim C8, amended: for every brace-free namespace and every logical
key, the physical key has the form
`"{scheme}:" + ns + "::" + k + ":c" + version` with scheme `pt2` and the
version component prefixed with the letter `c` (the code fixes
`version = 1`, so keys end in `":c1"`). -/
theorem get_key_version_letter (ns k : String) (h : braceFree ns) :
    S3RemoteCache._get_key ns k = .ok (specPhysicalKeyC "pt2" ns k 1) := by
  rw [get_key_of_braceFree ns k h]
  refine congrArg Except.ok (String.ext ?_)
  simp +decide [specPhysicalKey, specPhysicalKeyC, String.data_append]

theorem get_key_version_letter_witness :
    S3RemoteCache._get_key "compile-cache" "entry" =
      .ok (specPhysicalKeyC "pt2" "compile-cache" "entry" 1) :=
  get_key_version_letter "compile-cache" "entry" (by decide)

/-- Claim C9, counterexample: the physical-key map is not injective across
jointly varying namespace and logical key — the unescaped `"::"` separator
lets `("a", "b::c")` and `("a::b", "c")` collide on the same physical key. -/
theorem get_key_injectivity_counterexample :
    S3RemoteCache._get_key "a" "b::c" = S3RemoteCache._get_key "a::b" "c" ∧
    (("a", "b::c") : String × String) ≠ ("a::b", "c") := by decide

/-- Claim C9, amended: the physical-key function is pure and deterministic
(identical inputs give identical output), and for a fixed brace-free
namespace it is injective across logical keys: distinct logical keys yield
distinct physical keys.  Injectivity across jointly varying namespace and
key fails (see the counterexample), and the code fixes the version at 1. -/
theorem get_key_deterministic_and_injective :
    (∀ ns k, S3RemoteCache._get_key ns k = S3RemoteCache._get_key ns k) ∧
    (∀ ns k1 k2, braceFree ns →
      S3RemoteCache._get_key ns k1 = S3RemoteCache._get_key ns k2 →
      k1 = k2) := by
  refine ⟨fun ns k => rfl, fun ns k1 k2 h he => ?_⟩
  rw [get_key_of_braceFree ns k1 h, get_key_of_braceFree ns k2 h] at he
  have hs : specPhysicalKey ns k1 = specPhysicalKey ns k2 := Except.ok.inj he
  have hd := congrArg String.data hs
  simp only [specPhysicalKey, String.data_append] at hd
  exact String.ext (List.append_cancel_left (List.append_cancel_right hd))

theorem get_key_deterministic_and_injective_witness :
    ("entry" : String) = "entry" :=
  get_key_deterministic_and_injective.2 "compile-cache" "entry" "entry"
    (by decide) rfl
